import Mathlib

/-!
Verification of the scoped-resource-ownership layer in
`src/utils/Scoped.h` (SumatraPDF). Each C++ wrapper class is shallowly
embedded: its single field becomes a Lean structure field, pointers
become `Option Nat` (with `none` as `nullptr` and `some a` as a pointer
to address `a`), and every method or destructor becomes a pure function
that returns the ordered list of calls it makes to the external release
and acquisition primitives (the trace of `Event`s) together with the
resulting wrapper state.
-/

namespace Scoped

/-- One call made by a wrapper to an external primitive, or one write of
a wrapper's pointer field. Traces of these events, in program order,
record what a method or destructor body does. -/
inductive Event where
  /-- libc deallocated the live buffer at this address. -/
  | freeMem (addr : Nat)
  /-- a heap object at this address was destroyed by a C++ delete-expression. -/
  | deleteHeapObj (addr : Nat)
  /-- `Release()` was called on the COM interface at this address. -/
  | comRelease (addr : Nat)
  /-- `CloseHandle` was called with this handle value (a literal platform
  call, whatever the handle value is). -/
  | closeHandle (h : Int)
  /-- the wrapper's pointer field was assigned this value. -/
  | storePtr (v : Option Nat)
  deriving DecidableEq, Repr

/-- Embedding of libc `free` as the trace of releases it performs:
`free(nullptr)` performs no deallocation (C11 7.22.3.3.2; spec section 6
requires free-of-null to be a no-op), and `free(p)` for non-null `p`
deallocates the buffer at `p`, exactly once. -/
def freeCall : Option Nat → List Event
  | none => []
  | some a => [Event.freeMem a]

/-- Embedding of the C++ delete-expression as the trace of destructions
it performs: `delete nullptr` is a no-op (C++ [expr.delete]; spec
section 6 requires destroy-of-null to be a no-op), and `delete p` for
non-null `p` destroys the object at `p`, exactly once. -/
def deleteCall : Option Nat → List Event
  | none => []
  | some a => [Event.deleteHeapObj a]

/-- `ScopedMem<T>`: auto-free wrapper for `malloc`ed memory; holds the
single field `T* ptr`. -/
structure ScopedMem where
  ptr : Option Nat
  deriving DecidableEq, Repr

/-- `ScopedMem() : ptr(nullptr)` — the default constructor. -/
def ScopedMem.defaultCtor : ScopedMem := ⟨none⟩

/-- `explicit ScopedMem(T* ptr) : ptr(ptr)`. -/
def ScopedMem.ctor (p : Option Nat) : ScopedMem := ⟨p⟩

/-- `~ScopedMem() { free(ptr); }` — the destructor calls `free` on the
field unconditionally; its trace is whatever that call deallocates. -/
def ScopedMem.destruct (s : ScopedMem) : List Event :=
  freeCall s.ptr

/-- `void Set(T* newPtr) { free(ptr); ptr = newPtr; }` — returns the
trace (the free of the old value, then the field store) and the new
wrapper state. -/
def ScopedMem.Set (s : ScopedMem) (newPtr : Option Nat) : List Event × ScopedMem :=
  (freeCall s.ptr ++ [Event.storePtr newPtr], ⟨newPtr⟩)

/-- `T* Get() const { return ptr; }`. -/
def ScopedMem.Get (s : ScopedMem) : Option Nat := s.ptr

/-- `T* StealData() { T* tmp = ptr; ptr = nullptr; return tmp; }` —
returns the returned pointer and the emptied wrapper. -/
def ScopedMem.StealData (s : ScopedMem) : Option Nat × ScopedMem :=
  (s.ptr, ⟨none⟩)

/-- The copy constructor of `ScopedMem`: the class declares no copy
operations and does not delete them, so C++ supplies the implicit
memberwise copy ([class.copy.ctor]), which duplicates the raw `ptr`
field. -/
def ScopedMem.implicitCopy (s : ScopedMem) : ScopedMem := ⟨s.ptr⟩

/-- `ScopedPtr<T>`: deletes the held object at end of scope; field `T* obj`. -/
structure ScopedPtr where
  obj : Option Nat
  deriving DecidableEq, Repr

/-- `ScopedPtr() : obj(nullptr)`. -/
def ScopedPtr.defaultCtor : ScopedPtr := ⟨none⟩

/-- `explicit ScopedPtr(T* obj) : obj(obj)`. -/
def ScopedPtr.ctor (p : Option Nat) : ScopedPtr := ⟨p⟩

/-- `~ScopedPtr() { delete obj; }`. -/
def ScopedPtr.destruct (s : ScopedPtr) : List Event :=
  deleteCall s.obj

/-- `T* Detach() { T* tmp = obj; obj = nullptr; return tmp; }`. -/
def ScopedPtr.Detach (s : ScopedPtr) : Option Nat × ScopedPtr :=
  (s.obj, ⟨none⟩)

/-- `T* operator=(T* newObj) { delete obj; return (obj = newObj); }` —
returns the trace (delete of old, then the store) and the new state;
the C++ return value is the stored pointer itself. -/
def ScopedPtr.assign (s : ScopedPtr) (newObj : Option Nat) : List Event × ScopedPtr :=
  (deleteCall s.obj ++ [Event.storePtr newObj], ⟨newObj⟩)

/-! String heap: `AutoFreeStr::SetCopy` duplicates a borrowed character
buffer into a freshly allocated one, so for it the embedding needs
addressable string buffers. A `StrHeap` maps allocated addresses to the
character contents stored there; `next` is the next fresh address, and
every allocated address is below `next`. -/

/-- A heap of string buffers: an association list from allocated
addresses to contents, plus the next fresh address. -/
structure StrHeap where
  contents : List (Nat × List Char)
  next : Nat
  deriving DecidableEq, Repr

/-- Look up an address in an association list of buffers. -/
def lookupAddr : List (Nat × List Char) → Nat → Option (List Char)
  | [], _ => none
  | e :: t, a => if e.1 = a then some e.2 else lookupAddr t a

/-- Replace the contents stored at an address in an association list. -/
def updateAddr : List (Nat × List Char) → Nat → List Char → List (Nat × List Char)
  | [], _, _ => []
  | e :: t, a, cs => if e.1 = a then (a, cs) :: updateAddr t a cs else e :: updateAddr t a cs

/-- Remove an address from an association list of buffers. -/
def removeAddr : List (Nat × List Char) → Nat → List (Nat × List Char)
  | [], _ => []
  | e :: t, a => if e.1 = a then removeAddr t a else e :: removeAddr t a

/-- Read the buffer at address `a` (`none` when `a` is not allocated). -/
def StrHeap.read (h : StrHeap) (a : Nat) : Option (List Char) :=
  lookupAddr h.contents a

/-- Overwrite the contents of the allocated buffer at address `a`
(models the caller mutating a buffer in place). -/
def StrHeap.write (h : StrHeap) (a : Nat) (cs : List Char) : StrHeap :=
  ⟨updateAddr h.contents a cs, h.next⟩

/-- Deallocate the buffer at address `a` (models the caller freeing it). -/
def StrHeap.dealloc (h : StrHeap) (a : Nat) : StrHeap :=
  ⟨removeAddr h.contents a, h.next⟩

/-- Well-formedness: every allocated address is below `next`, so `next`
is genuinely fresh. -/
def StrHeap.WF (h : StrHeap) : Prop :=
  ∀ p ∈ h.contents, p.1 < h.next

/-- Modelled from the spec: `str::Dup` is defined outside this header;
the spec describes it as the string-duplication utility
`duplicate(borrowedText) -> newOwnedCopy`. It allocates a fresh buffer,
copies the source characters into it and returns the new buffer; the
embedding returns the fresh address and the extended heap. -/
def strDup (h : StrHeap) (src : List Char) : Nat × StrHeap :=
  (h.next, ⟨(h.next, src) :: h.contents, h.next + 1⟩)

/-- `AutoFreeStr<T> : public ScopedMem<T>`: the duplicating string
owner; inherits the single `ptr` field and `~ScopedMem`. -/
structure AutoFreeStr where
  ptr : Option Nat
  deriving DecidableEq, Repr

/-- `AutoFreeStr() { this->ptr = nullptr; }`. -/
def AutoFreeStr.defaultCtor : AutoFreeStr := ⟨none⟩

/-- `explicit AutoFreeStr(T* ptr) { this->ptr = ptr; }`. -/
def AutoFreeStr.ctor (p : Option Nat) : AutoFreeStr := ⟨p⟩

/-- `AutoFreeStr`'s destructor is the inherited `~ScopedMem`:
`free(ptr)`. -/
def AutoFreeStr.destruct (s : AutoFreeStr) : List Event :=
  freeCall s.ptr

/-- `void SetCopy(const T* newPtr) { free(this->ptr); this->ptr =
nullptr; if (newPtr) { this->ptr = str::Dup(newPtr); } }` — returns the
trace, the heap after any duplication, and the new wrapper state. The
borrowed argument is a possibly-null pointer into the heap. -/
def AutoFreeStr.SetCopy (h : StrHeap) (s : AutoFreeStr) (newPtr : Option Nat) :
    List Event × StrHeap × AutoFreeStr :=
  match newPtr with
  | none =>
      (freeCall s.ptr ++ [Event.storePtr none], h, ⟨none⟩)
  | some src =>
      let dup := strDup h ((h.read src).getD [])
      (freeCall s.ptr ++ [Event.storePtr none, Event.storePtr (some dup.1)],
       dup.2, ⟨some dup.1⟩)

/-! `ScopedHandle`: OS handles are pointer-sized values; `NULL` is `0`
and `INVALID_HANDLE_VALUE` is `(HANDLE)-1`, so handles are embedded as
`Int`. -/

/-- The Win32 sentinel `INVALID_HANDLE_VALUE = (HANDLE)-1`. -/
def INVALID_HANDLE_VALUE : Int := -1

/-- Embedding of the platform call `CloseHandle(h)`: the call itself is
recorded for every argument value, because the platform defines closing
only for values other than the invalid sentinel (spec section 6) and
passing the sentinel is exactly the misuse the spec warns about, so it
must stay visible in the trace. -/
def closeHandleCall (h : Int) : List Event := [Event.closeHandle h]

/-- `ScopedHandle`: owns one OS `HANDLE`. -/
structure ScopedHandle where
  handle : Int
  deriving DecidableEq, Repr

/-- `explicit ScopedHandle(HANDLE handle) : handle(handle)`. -/
def ScopedHandle.ctor (h : Int) : ScopedHandle := ⟨h⟩

/-- `~ScopedHandle() { CloseHandle(handle); }` — the call is made
unconditionally on the stored handle. -/
def ScopedHandle.destruct (s : ScopedHandle) : List Event :=
  closeHandleCall s.handle

/-- `bool IsValid() const { return handle != NULL && handle !=
INVALID_HANDLE_VALUE; }`. -/
def ScopedHandle.IsValid (s : ScopedHandle) : Bool :=
  s.handle != 0 && s.handle != INVALID_HANDLE_VALUE

/-! COM wrappers. A reference-counted interface pointer is `Option Nat`
(`none` = null). `CrashIf` and `CoCreateInstance` live outside this
header: `CrashIf` is modelled from the spec, and `CoCreateInstance` is
an external collaborator whose outcome for the given class id is passed
in as a parameter (`some inst` on success, `none` on failure; on
failure COM leaves the out-parameter null). -/

/-- The outcome of an execution that may hit a fatal assertion. -/
inductive CrashError where
  | crashed
  deriving DecidableEq, Repr

/-- Modelled from the spec: `CrashIf` (defined outside this header, in
BaseUtil) is the fatal-assertion primitive — a true condition is a
programmer error "treated as an assertion, not a recoverable error"
(spec section 4.5), so it ends the execution rather than returning. -/
def CrashIf (cond : Bool) : Except CrashError Unit :=
  if cond then Except.error CrashError.crashed else Except.ok ()

/-- `ScopedComPtr<T>`: owns one reference-count increment on a COM
interface; single field `T* ptr`. -/
structure ScopedComPtr where
  ptr : Option Nat
  deriving DecidableEq, Repr

/-- `ScopedComPtr() : ptr(nullptr)`. -/
def ScopedComPtr.defaultCtor : ScopedComPtr := ⟨none⟩

/-- `explicit ScopedComPtr(T* ptr) : ptr(ptr)`. -/
def ScopedComPtr.ctor (p : Option Nat) : ScopedComPtr := ⟨p⟩

/-- `~ScopedComPtr() { if (ptr) ptr->Release(); }`. -/
def ScopedComPtr.destruct (s : ScopedComPtr) : List Event :=
  match s.ptr with
  | some p => [Event.comRelease p]
  | none => []

/-- The implicit memberwise copy constructor of `ScopedComPtr` (no copy
operation is declared or deleted in the source class, so C++ supplies
it, duplicating the raw `ptr` field without touching the reference
count). -/
def ScopedComPtr.implicitCopy (s : ScopedComPtr) : ScopedComPtr := ⟨s.ptr⟩

/-- `bool Create(const CLSID clsid) { CrashIf(ptr); if (ptr) return
false; HRESULT hr = CoCreateInstance(...IID_PPV_ARGS(&ptr)); return
SUCCEEDED(hr); }` — `coCreate` is the instantiation outcome for the
class id; the result is the returned bool and the new state, or the
crash from the assertion. -/
def ScopedComPtr.Create (s : ScopedComPtr) (coCreate : Option Nat) :
    Except CrashError (Bool × ScopedComPtr) := do
  CrashIf s.ptr.isSome
  if s.ptr.isSome then
    return (false, s)
  match coCreate with
  | some inst => return (true, ⟨some inst⟩)
  | none => return (false, ⟨none⟩)

/-- `T* operator=(T* newPtr) { if (ptr) ptr->Release(); return (ptr =
newPtr); }` — trace (release of old if non-null, then the store) and
new state. -/
def ScopedComPtr.assign (s : ScopedComPtr) (newPtr : Option Nat) :
    List Event × ScopedComPtr :=
  ((match s.ptr with
    | some p => [Event.comRelease p]
    | none => []) ++ [Event.storePtr newPtr], ⟨newPtr⟩)

/-- An `IUnknown` object as the querying wrapper sees it: the one
capability the wrapper exercises is `QueryInterface` for its target
interface `T`, so the object is represented by that query's outcome —
`some p` when the object supports `T` (the returned pointer, already
reference-counted for the caller per COM rules), `none` when it does
not (`E_NOINTERFACE`). -/
structure IUnknownObj where
  qi : Option Nat
  deriving DecidableEq, Repr

/-- `unk->QueryInterface(&ptr)` per the COM contract (spec section 6:
`queryInterface(targetKind) -> pointer|null`): returns whether the
HRESULT succeeded and the value written to the out-parameter (null on
failure). -/
def queryInterface (u : IUnknownObj) : Bool × Option Nat :=
  match u.qi with
  | some p => (true, some p)
  | none => (false, none)

/-- A fault: the program dereferenced a null pointer. -/
inductive DerefNull where
  | nullDeref
  deriving DecidableEq, Repr

/-- `ScopedComQIPtr<T>`: like `ScopedComPtr` but obtainable via a
capability query; single field `T* ptr`. -/
structure ScopedComQIPtr where
  ptr : Option Nat
  deriving DecidableEq, Repr

/-- `ScopedComQIPtr() : ptr(nullptr)`. -/
def ScopedComQIPtr.defaultCtor : ScopedComQIPtr := ⟨none⟩

/-- `explicit ScopedComQIPtr(IUnknown* unk) { HRESULT hr =
unk->QueryInterface(&ptr); if (FAILED(hr)) ptr = nullptr; }` — the
argument is dereferenced with no null check, so a null `unk` is a
null-pointer fault; otherwise the query's written value is kept on
success and the field is nulled on failure. -/
def ScopedComQIPtr.ctorFromUnknown (unk : Option IUnknownObj) :
    Except DerefNull ScopedComQIPtr :=
  match unk with
  | none => Except.error DerefNull.nullDeref
  | some u =>
      let q := queryInterface u
      Except.ok ⟨if q.1 then q.2 else none⟩

/-- `~ScopedComQIPtr() { if (ptr) ptr->Release(); }`. -/
def ScopedComQIPtr.destruct (s : ScopedComQIPtr) : List Event :=
  match s.ptr with
  | some p => [Event.comRelease p]
  | none => []

/-- `bool Create(const CLSID clsid)` of `ScopedComQIPtr` — same body as
`ScopedComPtr::Create`. -/
def ScopedComQIPtr.Create (s : ScopedComQIPtr) (coCreate : Option Nat) :
    Except CrashError (Bool × ScopedComQIPtr) := do
  CrashIf s.ptr.isSome
  if s.ptr.isSome then
    return (false, s)
  match coCreate with
  | some inst => return (true, ⟨some inst⟩)
  | none => return (false, ⟨none⟩)

/-- `T* operator=(IUnknown* newUnk) { if (ptr) ptr->Release(); HRESULT
hr = newUnk->QueryInterface(&ptr); if (FAILED(hr)) ptr = nullptr;
return ptr; }` — the release of the old pointer happens first, then
`newUnk` is dereferenced with no null check; the result pairs the
events emitted before any fault with the outcome. -/
def ScopedComQIPtr.assignUnknown (s : ScopedComQIPtr) (newUnk : Option IUnknownObj) :
    List Event × Except DerefNull ScopedComQIPtr :=
  let rel : List Event :=
    match s.ptr with
    | some p => [Event.comRelease p]
    | none => []
  match newUnk with
  | none => (rel, Except.error DerefNull.nullDeref)
  | some u =>
      let q := queryInterface u
      let v : Option Nat := if q.1 then q.2 else none
      (rel ++ [Event.storePtr v], Except.ok ⟨v⟩)

/-- `T* operator=(T* newPtr) { if (ptr) ptr->Release(); return (ptr =
newPtr); }` of `ScopedComQIPtr`. -/
def ScopedComQIPtr.assign (s : ScopedComQIPtr) (newPtr : Option Nat) :
    List Event × ScopedComQIPtr :=
  ((match s.ptr with
    | some p => [Event.comRelease p]
    | none => []) ++ [Event.storePtr newPtr], ⟨newPtr⟩)

/-! `ScopedHdcSelect`: the device-context selection guard. A device
context is represented by its one piece of state the guard touches: the
currently selected GDI object. -/

/-- A device context's selection state: the currently selected object. -/
structure DC where
  selected : Nat
  deriving DecidableEq, Repr

/-- The platform call `SelectObject(hdc, obj)` (spec section 6:
`select(context, object) -> previousObject`): selects `obj` into the
context and returns the previously selected object. -/
def SelectObject (dc : DC) (obj : Nat) : Nat × DC :=
  (dc.selected, ⟨obj⟩)

/-- `ScopedHdcSelect`: records the previously selected object; the
`hdc` field is represented by threading the one `DC` state through
construction and destruction. -/
structure ScopedHdcSelect where
  prev : Nat
  deriving DecidableEq, Repr

/-- `ScopedHdcSelect(HDC hdc, HGDIOBJ obj) : hdc(hdc) { prev =
SelectObject(hdc, obj); }` — returns the guard and the context after
selection. -/
def ScopedHdcSelect.ctor (dc : DC) (obj : Nat) : ScopedHdcSelect × DC :=
  let r := SelectObject dc obj
  (⟨r.1⟩, r.2)

/-- `~ScopedHdcSelect() { SelectObject(hdc, prev); }` — returns the
object the destructor re-selected (the platform call's result is
discarded by the source) and the context afterwards. -/
def ScopedHdcSelect.destruct (g : ScopedHdcSelect) (dc : DC) : Nat × DC :=
  SelectObject dc g.prev

/-! Helper lemmas about the string heap. -/

/-- An address that reads successfully is allocated below `next` in a
well-formed heap. -/
theorem lookupAddr_cons (e : Nat × List Char) (t : List (Nat × List Char)) (a : Nat) :
    lookupAddr (e :: t) a = if e.1 = a then some e.2 else lookupAddr t a := rfl

theorem updateAddr_cons (e : Nat × List Char) (t : List (Nat × List Char)) (a : Nat)
    (cs : List Char) :
    updateAddr (e :: t) a cs
      = if e.1 = a then (a, cs) :: updateAddr t a cs else e :: updateAddr t a cs := rfl

theorem removeAddr_cons (e : Nat × List Char) (t : List (Nat × List Char)) (a : Nat) :
    removeAddr (e :: t) a = if e.1 = a then removeAddr t a else e :: removeAddr t a := rfl

theorem lookupAddr_lt_of_bound (l : List (Nat × List Char)) (a n : Nat) (cs : List Char)
    (hb : ∀ p ∈ l, p.1 < n) (hr : lookupAddr l a = some cs) : a < n := by
  induction l with
  | nil => simp [lookupAddr] at hr
  | cons e t ih =>
      by_cases hea : e.1 = a
      · have := hb e (List.mem_cons_self e t)
        omega
      · rw [lookupAddr_cons, if_neg hea] at hr
        exact ih (fun q hq => hb q (List.mem_cons_of_mem e hq)) hr

theorem lookupAddr_updateAddr_ne (l : List (Nat × List Char)) (a b : Nat)
    (cs : List Char) (hne : a ≠ b) : lookupAddr (updateAddr l b cs) a = lookupAddr l a := by
  induction l with
  | nil => rfl
  | cons e t ih =>
      by_cases heb : e.1 = b
      · have hba : ¬ (b = a) := fun hc => hne hc.symm
        have hea : ¬ (e.1 = a) := by omega
        rw [updateAddr_cons, if_pos heb, lookupAddr_cons, lookupAddr_cons]
        rw [if_neg hba]
        rw [if_neg hea, ih]
      · rw [updateAddr_cons, if_neg heb, lookupAddr_cons, lookupAddr_cons]
        by_cases hea : e.1 = a
        · rw [if_pos hea, if_pos hea]
        · rw [if_neg hea, if_neg hea, ih]

theorem lookupAddr_removeAddr_ne (l : List (Nat × List Char)) (a b : Nat)
    (hne : a ≠ b) : lookupAddr (removeAddr l b) a = lookupAddr l a := by
  induction l with
  | nil => rfl
  | cons e t ih =>
      by_cases heb : e.1 = b
      · have hea : ¬ (e.1 = a) := by omega
        rw [removeAddr_cons, if_pos heb, lookupAddr_cons, if_neg hea, ih]
      · rw [removeAddr_cons, if_neg heb, lookupAddr_cons, lookupAddr_cons]
        by_cases hea : e.1 = a
        · rw [if_pos hea, if_pos hea]
        · rw [if_neg hea, if_neg hea, ih]

/-- An address that reads successfully is allocated below `next` in a
well-formed heap. -/
theorem StrHeap.lt_next_of_read_some (h : StrHeap) (a : Nat) (cs : List Char)
    (hwf : h.WF) (hr : h.read a = some cs) : a < h.next :=
  lookupAddr_lt_of_bound h.contents a h.next cs hwf hr

/-- Writing at one address does not change what another address reads. -/
theorem StrHeap.read_write_ne (h : StrHeap) (a b : Nat) (cs : List Char)
    (hne : a ≠ b) : (h.write b cs).read a = h.read a :=
  lookupAddr_updateAddr_ne h.contents a b cs hne

/-- Deallocating one address does not change what another address reads. -/
theorem StrHeap.read_dealloc_ne (h : StrHeap) (a b : Nat) (hne : a ≠ b) :
    (h.dealloc b).read a = h.read a :=
  lookupAddr_removeAddr_ne h.contents a b hne

/-! The claims. -/

/-- For the owner variants with an empty state (`ScopedMem`,
`ScopedPtr`, `AutoFreeStr`, `ScopedComPtr`, `ScopedComQIPtr`),
destruction runs the variant's release action exactly once when the
field is non-empty, and zero times when the wrapper is empty — whether
default-constructed or emptied by steal/detach. The handle owner is
the one variant that breaks this discipline; see the next theorem. -/
theorem owner_variants_release_iff_nonempty :
    (∀ a : Nat, (ScopedMem.ctor (some a)).destruct = [Event.freeMem a])
      ∧ ScopedMem.defaultCtor.destruct = []
      ∧ (∀ s : ScopedMem, (s.StealData).2.destruct = [])
      ∧ (∀ a : Nat, (ScopedPtr.ctor (some a)).destruct = [Event.deleteHeapObj a])
      ∧ ScopedPtr.defaultCtor.destruct = []
      ∧ (∀ s : ScopedPtr, (s.Detach).2.destruct = [])
      ∧ (∀ a : Nat, (AutoFreeStr.ctor (some a)).destruct = [Event.freeMem a])
      ∧ AutoFreeStr.defaultCtor.destruct = []
      ∧ (∀ a : Nat, (ScopedComPtr.ctor (some a)).destruct = [Event.comRelease a])
      ∧ ScopedComPtr.defaultCtor.destruct = []
      ∧ (∀ a : Nat, (ScopedComQIPtr.mk (some a)).destruct = [Event.comRelease a])
      ∧ ScopedComQIPtr.defaultCtor.destruct = [] :=
  ⟨fun _ => rfl, rfl, fun _ => rfl, fun _ => rfl, rfl, fun _ => rfl,
   fun _ => rfl, rfl, fun _ => rfl, rfl, fun _ => rfl, rfl⟩

/-- C1: the claim — for every wrapper variant the release action fires
iff the field is non-empty at scope exit — is violated by the handle
owner. A `ScopedHandle` holding `NULL` (the handle kind's empty
sentinel per the spec, which the class's own `IsValid` classifies as
not a valid handle) still invokes the close primitive on destruction,
because `~ScopedHandle() { CloseHandle(handle); }` makes the call
unconditionally. The previous theorem shows every other owner variant
obeys the claimed discipline, so the unguarded handle destructor —
the same slip recorded at claim C2 — is the sole violator, and this
theorem evaluates the code at the failing input. -/
theorem C1_handle_empty_sentinel_still_fires_close :
    (ScopedHandle.ctor 0).destruct = [Event.closeHandle 0]
      ∧ (ScopedHandle.ctor 0).IsValid = false :=
  ⟨rfl, by decide⟩

/-- C2: the claim says the handle owner's destructor invokes the close
primitive only if the held handle is not the invalid-handle sentinel.
The source destructor is `~ScopedHandle() { CloseHandle(handle); }`
with no guard, so constructing with `INVALID_HANDLE_VALUE` and
destructing does invoke `CloseHandle` on the sentinel — even though the
class's own `IsValid()` classifies that very handle as invalid. This
theorem evaluates the code at the failing input. -/
theorem C2_close_invoked_on_sentinel :
    (ScopedHandle.ctor INVALID_HANDLE_VALUE).destruct
        = [Event.closeHandle INVALID_HANDLE_VALUE]
      ∧ (ScopedHandle.ctor INVALID_HANDLE_VALUE).IsValid = false :=
  ⟨rfl, by decide⟩

/-- C3 counterexample: duplicating a live wrapper is not statically
disallowed — no wrapper declares or deletes a copy operation, so the
implicit memberwise copy is available; copying a `ScopedMem` holding
the buffer at address 7 yields a second live wrapper holding the same
buffer, and destructing both frees address 7 twice (a double release),
so copying is neither prevented nor harmless. -/
theorem C3_copy_allowed_double_release_counterexample :
    (ScopedMem.implicitCopy (ScopedMem.mk (some 7))).ptr = some 7
      ∧ (ScopedMem.mk (some 7)).destruct
          ++ (ScopedMem.implicitCopy (ScopedMem.mk (some 7))).destruct
        = [Event.freeMem 7, Event.freeMem 7] := by
  decide

/-- C3 (amended): no wrapper type declares or deletes copy operations,
so C++ supplies the implicit memberwise copy: duplicating a live
wrapper compiles and yields two live wrappers holding the same
resource, whose destructions release that resource twice; double
release is prevented only by callers not copying, not statically. -/
theorem C3_implicit_memberwise_copy :
    (∀ p : Option Nat, ScopedMem.implicitCopy (ScopedMem.mk p) = ScopedMem.mk p)
      ∧ (∀ a : Nat,
          (ScopedMem.mk (some a)).destruct
              ++ (ScopedMem.implicitCopy (ScopedMem.mk (some a))).destruct
            = [Event.freeMem a, Event.freeMem a])
      ∧ (∀ p : Option Nat,
          ScopedComPtr.implicitCopy (ScopedComPtr.mk p) = ScopedComPtr.mk p)
      ∧ (∀ a : Nat,
          (ScopedComPtr.mk (some a)).destruct
              ++ (ScopedComPtr.implicitCopy (ScopedComPtr.mk (some a))).destruct
            = [Event.comRelease a, Event.comRelease a]) :=
  ⟨fun _ => rfl, fun _ => rfl, fun _ => rfl, fun _ => rfl⟩

/-- C4: for every owner variant with reassignment (`ScopedMem::Set`,
`ScopedPtr::operator=`, `ScopedComPtr::operator=`,
`ScopedComQIPtr::operator=`), reassigning a non-empty owner releases
the previously held resource exactly once, the release event precedes
the store of the new value in the trace, and the owner afterwards holds
exactly the new value. -/
theorem C4_reassign_releases_old_before_store :
    (∀ (a : Nat) (n : Option Nat),
        ScopedMem.Set (ScopedMem.mk (some a)) n
          = ([Event.freeMem a, Event.storePtr n], ScopedMem.mk n))
      ∧ (∀ (a : Nat) (n : Option Nat),
          ScopedPtr.assign (ScopedPtr.mk (some a)) n
            = ([Event.deleteHeapObj a, Event.storePtr n], ScopedPtr.mk n))
      ∧ (∀ (a : Nat) (n : Option Nat),
          ScopedComPtr.assign (ScopedComPtr.mk (some a)) n
            = ([Event.comRelease a, Event.storePtr n], ScopedComPtr.mk n))
      ∧ (∀ (a : Nat) (n : Option Nat),
          ScopedComQIPtr.assign (ScopedComQIPtr.mk (some a)) n
            = ([Event.comRelease a, Event.storePtr n], ScopedComQIPtr.mk n)) :=
  ⟨fun _ _ => rfl, fun _ _ => rfl, fun _ _ => rfl, fun _ _ => rfl⟩

/-- C5: stealing (`ScopedMem::StealData`, `ScopedPtr::Detach`) returns
exactly the held value, leaves the wrapper empty, and the emptied
wrapper's destruction performs zero releases. -/
theorem C5_steal_returns_value_and_empties :
    (∀ s : ScopedMem,
        s.StealData = (s.ptr, ScopedMem.mk none) ∧ (s.StealData).2.destruct = [])
      ∧ (∀ s : ScopedPtr,
          s.Detach = (s.obj, ScopedPtr.mk none) ∧ (s.Detach).2.destruct = []) :=
  ⟨fun _ => ⟨rfl, rfl⟩, fun _ => ⟨rfl, rfl⟩⟩

/-- C6: `AutoFreeStr::SetCopy(newPtr)` first frees the current buffer;
on a non-null borrowed buffer it stores a freshly duplicated owned copy
(at the fresh address `h.next`, distinct from the source) whose
contents equal the source's and are unaffected by later mutation or
deallocation of the source; on a null input the wrapper becomes empty
and the heap is untouched. -/
theorem C6_SetCopy_duplicates (h : StrHeap) (s : AutoFreeStr) (src : Nat)
    (cs : List Char) (hwf : h.WF) (hsrc : h.read src = some cs) :
    (AutoFreeStr.SetCopy h s (some src)).1
        = freeCall s.ptr ++ [Event.storePtr none, Event.storePtr (some h.next)]
      ∧ (AutoFreeStr.SetCopy h s (some src)).2.2.ptr = some h.next
      ∧ h.next ≠ src
      ∧ (AutoFreeStr.SetCopy h s (some src)).2.1.read h.next = some cs
      ∧ (∀ cs2 : List Char,
          ((AutoFreeStr.SetCopy h s (some src)).2.1.write src cs2).read h.next = some cs)
      ∧ ((AutoFreeStr.SetCopy h s (some src)).2.1.dealloc src).read h.next = some cs
      ∧ (AutoFreeStr.SetCopy h s none).1 = freeCall s.ptr ++ [Event.storePtr none]
      ∧ (AutoFreeStr.SetCopy h s none).2.2 = AutoFreeStr.mk none
      ∧ (AutoFreeStr.SetCopy h s none).2.1 = h := by
  have hlt : src < h.next := StrHeap.lt_next_of_read_some h src cs hwf hsrc
  have hne : h.next ≠ src := by omega
  have hread : (AutoFreeStr.SetCopy h s (some src)).2.1.read h.next = some cs := by
    show StrHeap.read ⟨(h.next, (h.read src).getD []) :: h.contents, h.next + 1⟩ h.next
        = some cs
    rw [hsrc]
    show lookupAddr ((h.next, cs) :: h.contents) h.next = some cs
    rw [lookupAddr_cons, if_pos rfl]
  refine ⟨rfl, rfl, hne, hread, ?_, ?_, rfl, rfl, rfl⟩
  · intro cs2
    rw [StrHeap.read_write_ne _ _ _ _ hne]
    exact hread
  · rw [StrHeap.read_dealloc_ne _ _ _ hne]
    exact hread

/-- Witness for C6 at a concrete input: the heap holding one buffer
containing the character x at address 0, an empty wrapper, and `src`
pointing at that buffer; the hypotheses hold by evaluation, and the
theorem gives the stored fresh copy at address 1. -/
theorem C6_SetCopy_duplicates_witness :
    (StrHeap.mk [(0, ['x'])] 1).WF
      ∧ (StrHeap.mk [(0, ['x'])] 1).read 0 = some ['x']
      ∧ (AutoFreeStr.SetCopy (StrHeap.mk [(0, ['x'])] 1) (AutoFreeStr.mk none)
            (some 0)).2.2.ptr = some (StrHeap.mk [(0, ['x'])] 1).next
      ∧ (AutoFreeStr.SetCopy (StrHeap.mk [(0, ['x'])] 1) (AutoFreeStr.mk none)
            (some 0)).2.1.read (StrHeap.mk [(0, ['x'])] 1).next = some ['x'] :=
  ⟨by unfold StrHeap.WF; decide, by decide,
   (C6_SetCopy_duplicates (StrHeap.mk [(0, ['x'])] 1) (AutoFreeStr.mk none) 0 ['x']
      (by unfold StrHeap.WF; decide) (by decide)).2.1,
   (C6_SetCopy_duplicates (StrHeap.mk [(0, ['x'])] 1) (AutoFreeStr.mk none) 0 ['x']
      (by unfold StrHeap.WF; decide) (by decide)).2.2.2.1⟩

/-- C7: constructing `ScopedComQIPtr` from an interface whose capability
query fails stores the empty sentinel (`nullptr`), the result is an
ordinary successful outcome (not a fault), and destruction of that
empty owner performs zero releases; by contrast a successful query
stores the queried pointer. -/
theorem C7_query_failure_yields_empty :
    ScopedComQIPtr.ctorFromUnknown (some (IUnknownObj.mk none))
        = Except.ok (ScopedComQIPtr.mk none)
      ∧ (ScopedComQIPtr.mk none).destruct = []
      ∧ (∀ p : Nat,
          ScopedComQIPtr.ctorFromUnknown (some (IUnknownObj.mk (some p)))
            = Except.ok (ScopedComQIPtr.mk (some p))) :=
  ⟨rfl, rfl, fun _ => rfl⟩

/-- C8: `Create` on both reference-counted owners hits the fatal
assertion (`CrashIf`) when the slot is occupied, and on an empty slot
returns the instantiation outcome as a boolean, storing the instance
exactly when instantiation succeeded. -/
theorem C8_Create_asserts_when_occupied :
    (∀ (a : Nat) (co : Option Nat),
        ScopedComPtr.Create (ScopedComPtr.mk (some a)) co
          = Except.error CrashError.crashed)
      ∧ (∀ i : Nat,
          ScopedComPtr.Create (ScopedComPtr.mk none) (some i)
            = Except.ok (true, ScopedComPtr.mk (some i)))
      ∧ ScopedComPtr.Create (ScopedComPtr.mk none) none
          = Except.ok (false, ScopedComPtr.mk none)
      ∧ (∀ (a : Nat) (co : Option Nat),
          ScopedComQIPtr.Create (ScopedComQIPtr.mk (some a)) co
            = Except.error CrashError.crashed)
      ∧ (∀ i : Nat,
          ScopedComQIPtr.Create (ScopedComQIPtr.mk none) (some i)
            = Except.ok (true, ScopedComQIPtr.mk (some i)))
      ∧ ScopedComQIPtr.Create (ScopedComQIPtr.mk none) none
          = Except.ok (false, ScopedComQIPtr.mk none) :=
  ⟨fun _ _ => rfl, fun _ => rfl, rfl, fun _ _ => rfl, fun _ => rfl, rfl⟩

/-- C9: the selection guard's constructor selects the given object and
records the previously selected one; its destructor re-selects exactly
the recorded object; and nesting two guards on one context restores the
selections in reverse order of selection — destructing the inner guard
brings back the outer guard's object, destructing the outer guard
brings back the original, leaving the context as before either guard. -/
theorem C9_hdc_select_restores_lifo :
    (∀ (dc : DC) (obj : Nat),
        (ScopedHdcSelect.ctor dc obj).1.prev = dc.selected
          ∧ (ScopedHdcSelect.ctor dc obj).2.selected = obj)
      ∧ (∀ (g : ScopedHdcSelect) (dc : DC), (g.destruct dc).2.selected = g.prev)
      ∧ (∀ s0 a b : Nat,
          ((ScopedHdcSelect.ctor (ScopedHdcSelect.ctor (DC.mk s0) a).2 b).1.destruct
              (ScopedHdcSelect.ctor (ScopedHdcSelect.ctor (DC.mk s0) a).2 b).2).2.selected
            = a
          ∧ ((ScopedHdcSelect.ctor (DC.mk s0) a).1.destruct
              ((ScopedHdcSelect.ctor (ScopedHdcSelect.ctor (DC.mk s0) a).2 b).1.destruct
                (ScopedHdcSelect.ctor (ScopedHdcSelect.ctor (DC.mk s0) a).2 b).2).2).2.selected
            = s0) :=
  ⟨fun _ _ => ⟨rfl, rfl⟩, fun _ _ => rfl, fun _ _ _ => ⟨rfl, rfl⟩⟩

/-- C10: the querying constructor and the assignment from an unrelated
interface dereference their argument with no null check: a null
argument is a null-pointer fault (after the assignment has already
released the old pointer), while every non-null argument proceeds to
the capability query and yields an ordinary result. -/
theorem C10_null_unknown_unhandled :
    ScopedComQIPtr.ctorFromUnknown none = Except.error DerefNull.nullDeref
      ∧ (∀ s : ScopedComQIPtr,
          (s.assignUnknown none).2 = Except.error DerefNull.nullDeref)
      ∧ (∀ u : IUnknownObj, ∃ t, ScopedComQIPtr.ctorFromUnknown (some u) = Except.ok t)
      ∧ (∀ (s : ScopedComQIPtr) (u : IUnknownObj),
          ∃ t, (s.assignUnknown (some u)).2 = Except.ok t) :=
  ⟨rfl, fun _ => rfl, fun u => ⟨_, rfl⟩, fun _ u => ⟨_, rfl⟩⟩

end Scoped
